import Mathlib

/-
Shallow embedding of the LegalTech document-sanitisation suite
(detection-validation-redaction pipeline for Chilean legal documents).

Strings are embedded as lists of characters; Python's `str.lower`,
`str.startswith`, `str.endswith`, substring containment (`in`) and
`str.split` are embedded as executable functions over `List Char`,
each with a characterisation lemma relating it to a structural
description (append decompositions).

The format validators, the authority classifier, the OCR-need detector,
the redaction applier, the report generator and the pipeline
orchestrator live in `app/main.py`, which is referenced by the package
metadata and the test-suite but is not part of the visible sources;
those components are modelled from the specification (their doc
comments say so explicitly).  `app/utilis.py` is visible and its
functions are embedded directly from the source.
-/

/-- Strings of the embedded program: lists of Unicode characters. -/
abbrev Str := List Char

/-- Python `s.lower()` restricted to its ASCII behaviour: lowercase every
basic-latin capital letter, leave every other character unchanged. -/
def minusculas (s : Str) : Str := s.map Char.toLower

/-- Python `s.startswith(pat)`: `pat` is a prefix of `s`. -/
def empieza_con : Str → Str → Bool
  | _, [] => true
  | [], _ :: _ => false
  | c :: s, p :: pat => c = p && empieza_con s pat

/-- Python `s.endswith(sufijo)`: `sufijo` is a suffix of `s`. -/
def termina_con (s sufijo : Str) : Bool :=
  empieza_con s.reverse sufijo.reverse

/-- Python `pat in s`: `pat` occurs contiguously inside `s`. -/
def contiene : Str → Str → Bool
  | [], pat => pat.isEmpty
  | c :: resto, pat => empieza_con (c :: resto) pat || contiene resto pat

/-- Python `s.split(sep)` on a list of characters. -/
def dividir (sep : Char) : Str → List Str
  | [] => [[]]
  | c :: resto =>
    if c = sep then [] :: dividir sep resto
    else
      match dividir sep resto with
      | [] => [[c]]
      | parte :: demas => (c :: parte) :: demas

theorem empieza_con_iff (s pat : Str) :
    empieza_con s pat = true ↔ ∃ resto, s = pat ++ resto := by
  induction pat generalizing s with
  | nil =>
    cases s <;> simp [empieza_con]
  | cons p pat ih =>
    cases s with
    | nil => simp [empieza_con]
    | cons c resto =>
      simp only [empieza_con, Bool.and_eq_true, decide_eq_true_eq, ih,
        List.cons_append, List.cons.injEq]
      constructor
      · rintro ⟨rfl, r, rfl⟩
        exact ⟨r, rfl, rfl⟩
      · rintro ⟨r, rfl, rfl⟩
        exact ⟨rfl, r, rfl⟩

theorem termina_con_iff (s sufijo : Str) :
    termina_con s sufijo = true ↔ ∃ pre, s = pre ++ sufijo := by
  unfold termina_con
  rw [empieza_con_iff]
  constructor
  · rintro ⟨resto, h⟩
    refine ⟨resto.reverse, ?_⟩
    have := congrArg List.reverse h
    simpa using this
  · rintro ⟨pre, rfl⟩
    exact ⟨pre.reverse, by simp⟩

theorem contiene_iff (s pat : Str) :
    contiene s pat = true ↔ ∃ pre post, s = pre ++ pat ++ post := by
  induction s with
  | nil =>
    simp only [contiene, List.isEmpty_iff]
    constructor
    · rintro rfl
      exact ⟨[], [], rfl⟩
    · rintro ⟨pre, post, h⟩
      rcases List.append_eq_nil.mp (List.append_eq_nil.mp h.symm).1 with ⟨-, h2⟩
      exact h2
  | cons c resto ih =>
    simp only [contiene, Bool.or_eq_true, empieza_con_iff, ih]
    constructor
    · rintro (⟨r, h⟩ | ⟨pre, post, h⟩)
      · exact ⟨[], r, by simpa using h⟩
      · exact ⟨c :: pre, post, by simp [h]⟩
    · rintro ⟨pre, post, h⟩
      cases pre with
      | nil =>
        left
        exact ⟨post, by simpa using h⟩
      | cons c0 pre =>
        right
        simp only [List.cons_append, List.cons.injEq] at h
        exact ⟨pre, post, h.2⟩

/-- The basic-latin capital letters. -/
def mayusculas : Str := ("ABCDEFGHIJKLMNOPQRSTUVWXYZ").toList

theorem toNat_ofNat_valido (n : Nat) (h : n.isValidChar) :
    (Char.ofNat n).toNat = n := by
  unfold Char.ofNat
  rw [dif_pos h]
  rfl

theorem toLower_toNat_no_mayuscula (c : Char) :
    ¬ (65 ≤ (Char.toLower c).toNat ∧ (Char.toLower c).toNat ≤ 90) := by
  unfold Char.toLower
  simp only []
  by_cases h : c.toNat ≥ 65 ∧ c.toNat ≤ 90
  · rw [if_pos h]
    rw [toNat_ofNat_valido]
    · omega
    · left
      have := h.2
      omega
  · rw [if_neg h]
    omega

theorem toLower_no_en_mayusculas (c : Char) : Char.toLower c ∉ mayusculas := by
  intro hmem
  have h := toLower_toNat_no_mayuscula c
  have hall : ∀ d ∈ mayusculas, 65 ≤ Char.toNat d ∧ Char.toNat d ≤ 90 := by decide
  exact h (hall _ hmem)

/-
Embedding of `app/utilis.py` (visible source).
-/

/-- Outcome of the fallible body of `cargar_configuracion`: opening the file
and parsing it with `yaml.safe_load` either produces a configuration value or
raises some exception. -/
inductive ErrorPy
  | error_es
  | error_analisis
deriving DecidableEq

/-- A parsed configuration mapping (keys to values). -/
abbrev Config := List (Str × Str)

/-- Embeds `utilis.cargar_configuracion`: the `try` body opens and parses the
YAML file; `except Exception` catches every failure and returns the empty
dictionary, otherwise the parsed mapping is returned unchanged. -/
def cargar_configuracion (lectura : Except ErrorPy Config) : Config :=
  match lectura with
  | .ok config => config
  | .error _ => []

/-- Embeds `utilis.validar_extension_archivo`: lowercase the file name, then
test whether it ends with any of the given extension strings (which are used
verbatim, never lowercased). -/
def validar_extension_archivo (nombre : Str) (extensiones_validas : List Str) : Bool :=
  let nombre_lower := minusculas nombre
  extensiones_validas.any (fun ext => termina_con nombre_lower ext)

/-- Claim C9: for every outcome of reading the YAML file,
`cargar_configuracion` never raises: a failed open or parse yields the empty
dictionary, and a successful parse yields the parsed configuration mapping
unchanged. -/
theorem c9_cargar_configuracion (err : ErrorPy) (config : Config) :
    cargar_configuracion (.error err) = [] ∧
    cargar_configuracion (.ok config) = config := by
  exact ⟨rfl, rfl⟩

/-- Claim C10: `validar_extension_archivo` returns true exactly when the
lowercased file name ends with one of the listed extension strings taken
verbatim; and since only the file name is lowercased, a listed extension
containing a capital letter can never match any file name. -/
theorem c10_validar_extension_archivo (nombre : Str) (extensiones_validas : List Str) :
    (validar_extension_archivo nombre extensiones_validas = true ↔
      ∃ ext ∈ extensiones_validas, ∃ pre, minusculas nombre = pre ++ ext) ∧
    (∀ ext ∈ extensiones_validas, (∃ c ∈ ext, c ∈ mayusculas) →
      termina_con (minusculas nombre) ext = false) := by
  constructor
  · simp only [validar_extension_archivo, List.any_eq_true, termina_con_iff]
  · rintro ext - ⟨c, hc, hmay⟩
    by_contra hfin
    rw [Bool.not_eq_false, termina_con_iff] at hfin
    obtain ⟨pre, hpre⟩ := hfin
    have hc2 : c ∈ minusculas nombre := by
      rw [hpre]
      exact List.mem_append_right _ hc
    obtain ⟨c0, -, rfl⟩ := List.mem_map.mp hc2
    exact toLower_no_en_mayusculas c0 hmay

/-- Closed instance of claim C10 at a concrete input: the extension
`.PDF` (capitalised) is never matched, here against the file name `a.PDF`. -/
theorem c10_testigo :
    termina_con (minusculas (("a.PDF").toList)) ((".PDF").toList) = false := by
  exact (c10_validar_extension_archivo (("a.PDF").toList) [(".PDF").toList]).2
    ((".PDF").toList) (by decide) (by decide)

/-
Format validators of `ValidadorDatosChilenos` (app/main.py, absent from
src/), modelled from the specification §4.1 and exercised by
`app/tests/test_validadores.py`.
-/

/-- Failure reasons carried by an invalid verdict. -/
inductive Razon
  | demasiado_corto
  | cuerpo_no_numerico
  | dv_incorrecto
  | no_numerico
  | formato_invalido
  | arroba_invalida
  | local_vacio
  | dominio_invalido
  | sin_digitos
  | sin_moneda
  | sin_marcador_uf
deriving DecidableEq

/-- A validation verdict: validity flag plus a failure reason when invalid. -/
structure Verdicto where
  valido : Bool
  razon : Option Razon
deriving DecidableEq

/-- Modelled from the spec: normalisation step of the National-ID validator
`ValidadorDatosChilenos.validar_rut_completo` (app/main.py, absent from src/):
strip thousands separators and dashes. -/
def normalizar_rut (s : Str) : Str :=
  s.filter (fun c => !(c = '.' || c = '-'))

/-- Modelled from the spec: numeric value of an ASCII digit character, as
used by the check-digit algorithm. -/
def valor_digito (c : Char) : Nat := c.toNat - 48

/-- Modelled from the spec: weighted digit sum of the National-ID check
algorithm, weights 2..7 cycling from the least significant digit. -/
def suma_ponderada (cuerpo : Str) : Nat :=
  (cuerpo.reverse.enum).foldl
    (fun acc p => acc + valor_digito p.2 * (2 + p.1 % 6)) 0

/-- Modelled from the spec: the check character of a National-ID body:
with r := weighted sum mod 11, r = 0 maps to '0', r = 1 maps to 'K',
otherwise the digit of 11 - r. -/
def caracter_dv (cuerpo : Str) : Char :=
  let r := suma_ponderada cuerpo % 11
  if r = 0 then '0'
  else if r = 1 then 'K'
  else Char.ofNat (48 + (11 - r))

/-- Modelled from the spec: `ValidadorDatosChilenos.validar_rut_completo`
(app/main.py, absent from src/): normalise, split into body and check
character, reject bodies shorter than 7 digits or with non-digit characters,
otherwise compare the supplied check character case-insensitively with the
recomputed one. -/
def validar_rut_completo (raw _contexto : Str) : Verdicto :=
  let limpio := normalizar_rut raw
  if limpio.length < 8 then ⟨false, some .demasiado_corto⟩
  else
    let cuerpo := limpio.dropLast
    let dv := limpio.getLastD ' '
    if cuerpo.all Char.isDigit then
      if Char.toLower dv = Char.toLower (caracter_dv cuerpo) then ⟨true, none⟩
      else ⟨false, some .dv_incorrecto⟩
    else ⟨false, some .cuerpo_no_numerico⟩

/-- Modelled from the spec: `ValidadorDatosChilenos.validar_telefono_chileno`
(app/main.py, absent from src/): strip a leading plus sign, reject non-digit
payloads and anything shorter than the shortest valid form, then accept
country-prefixed mobile, bare mobile, Santiago fixed-line and regional
fixed-line shapes. -/
def validar_telefono_chileno (raw _contexto : Str) : Verdicto :=
  let digitos :=
    match raw with
    | '+' :: resto => resto
    | otro => otro
  if !digitos.all Char.isDigit then ⟨false, some .no_numerico⟩
  else if digitos.length < 8 then ⟨false, some .demasiado_corto⟩
  else if (decide (digitos.length = 11) && empieza_con digitos ['5', '6', '9'])
      || (decide (digitos.length = 9) && empieza_con digitos ['9'])
      || (decide (digitos.length = 9) && empieza_con digitos ['2', '2'])
      || decide (digitos.length = 8) then ⟨true, none⟩
  else ⟨false, some .formato_invalido⟩

/-- Modelled from the spec: `ValidadorDatosChilenos.validar_email_juridico`
(app/main.py, absent from src/): exactly one at-sign, non-empty local part,
domain with at least one dot and no empty label (so a domain starting with a
dot is rejected). -/
def validar_email_juridico (raw _contexto : Str) : Verdicto :=
  if raw.count '@' ≠ 1 then ⟨false, some .arroba_invalida⟩
  else
    let parte_local := raw.takeWhile (fun c => c ≠ '@')
    let dominio := (raw.dropWhile (fun c => c ≠ '@')).drop 1
    if parte_local.isEmpty then ⟨false, some .local_vacio⟩
    else
      let etiquetas := dividir '.' dominio
      if decide (2 ≤ etiquetas.length) && etiquetas.all (fun e => !e.isEmpty) then
        ⟨true, none⟩
      else ⟨false, some .dominio_invalido⟩

/-- Modelled from the spec: currency markers (symbols, words and their
abbreviations) recognised by the monetary validator. -/
def marcadores_moneda : List Str :=
  [("$").toList, ("€").toList, ("peso").toList, ("dólar").toList,
   ("dolar").toList, ("euro").toList, ("usd").toList, ("clp").toList]

/-- Modelled from the spec: `ValidadorDatosChilenos.validar_contexto_monetario`
(app/main.py, absent from src/): at least one digit and a currency symbol or
currency word; strings with no digits at all are rejected. -/
def validar_contexto_monetario (raw _contexto : Str) : Verdicto :=
  if !raw.any Char.isDigit then ⟨false, some .sin_digitos⟩
  else if marcadores_moneda.any (fun m => contiene (minusculas raw) m) then
    ⟨true, none⟩
  else ⟨false, some .sin_moneda⟩

/-- Modelled from the spec: `ValidadorDatosChilenos.validar_contexto_uf`
(app/main.py, absent from src/): a unit marker before or after the number,
decimal comma or point allowed, non-numeric payloads rejected, large
magnitudes accepted. -/
def validar_contexto_uf (raw _contexto : Str) : Verdicto :=
  let bajo := minusculas raw
  if !contiene bajo (("uf").toList) then ⟨false, some .sin_marcador_uf⟩
  else
    let carga := bajo.filter (fun c => !(c = 'u' || c = 'f' || c = ' '))
    if carga.all (fun c => c.isDigit || c = '.' || c = ',') && carga.any Char.isDigit
    then ⟨true, none⟩
    else ⟨false, some .no_numerico⟩

/-- Claim C1: after normalisation, whenever the body has at least 7 digits and
is all-digit, the National-ID validator accepts exactly when the supplied
check character equals, case-insensitively, the one recomputed by the
modulo-11 weighted-digit algorithm; in particular body 12345678 with check
character 5 is valid and with check character 0 is invalid. -/
theorem c1_validar_rut_mod11 :
    (∀ raw contexto : Str,
      7 ≤ (normalizar_rut raw).dropLast.length →
      (normalizar_rut raw).dropLast.all Char.isDigit = true →
      ((validar_rut_completo raw contexto).valido = true ↔
        Char.toLower ((normalizar_rut raw).getLastD ' ') =
          Char.toLower (caracter_dv ((normalizar_rut raw).dropLast)))) ∧
    (validar_rut_completo (("12345678-5").toList) []).valido = true ∧
    (validar_rut_completo (("12345678-0").toList) []).valido = false := by
  refine ⟨?_, by decide, by decide⟩
  intro raw contexto h7 hdig
  have hlen : ¬ (normalizar_rut raw).length < 8 := by
    have := List.length_dropLast (normalizar_rut raw)
    omega
  simp only [validar_rut_completo, if_neg hlen, hdig, if_true]
  split
  · rename_i heq
    simpa using heq
  · rename_i hne
    simpa using hne

/-- Closed instance of claim C1 at the dotted concrete input 12.345.678-5. -/
theorem c1_testigo :
    (validar_rut_completo (("12.345.678-5").toList) []).valido = true := by
  have h := c1_validar_rut_mod11.1 (("12.345.678-5").toList) [] (by decide) (by decide)
  exact h.mpr (by decide)

theorem rut_razon_presente (raw contexto : Str) :
    (validar_rut_completo raw contexto).valido = false →
    (validar_rut_completo raw contexto).razon ≠ none := by
  simp only [validar_rut_completo]
  split
  · simp
  · split
    · split <;> simp
    · simp

theorem telefono_razon_presente (raw contexto : Str) :
    (validar_telefono_chileno raw contexto).valido = false →
    (validar_telefono_chileno raw contexto).razon ≠ none := by
  simp only [validar_telefono_chileno]
  split
  · simp
  · split
    · simp
    · split <;> simp

theorem email_razon_presente (raw contexto : Str) :
    (validar_email_juridico raw contexto).valido = false →
    (validar_email_juridico raw contexto).razon ≠ none := by
  simp only [validar_email_juridico]
  split
  · simp
  · split
    · simp
    · split <;> simp

theorem monetario_razon_presente (raw contexto : Str) :
    (validar_contexto_monetario raw contexto).valido = false →
    (validar_contexto_monetario raw contexto).razon ≠ none := by
  simp only [validar_contexto_monetario]
  split
  · simp
  · split <;> simp

theorem uf_razon_presente (raw contexto : Str) :
    (validar_contexto_uf raw contexto).valido = false →
    (validar_contexto_uf raw contexto).razon ≠ none := by
  simp only [validar_contexto_uf]
  split
  · simp
  · split <;> simp

/-- Claim C3: each of the five format validators is total on arbitrary raw
candidate and context strings (they are plain functions into `Verdicto`, so
every input yields a structured verdict and none can raise), an invalid
verdict always carries a failure reason, and the malformed inputs of the test
suite produce invalid verdicts rather than failures. -/
theorem c3_validadores_totales :
    (∀ raw contexto : Str,
      ((validar_rut_completo raw contexto).valido = false →
        (validar_rut_completo raw contexto).razon ≠ none) ∧
      ((validar_telefono_chileno raw contexto).valido = false →
        (validar_telefono_chileno raw contexto).razon ≠ none) ∧
      ((validar_email_juridico raw contexto).valido = false →
        (validar_email_juridico raw contexto).razon ≠ none) ∧
      ((validar_contexto_monetario raw contexto).valido = false →
        (validar_contexto_monetario raw contexto).razon ≠ none) ∧
      ((validar_contexto_uf raw contexto).valido = false →
        (validar_contexto_uf raw contexto).razon ≠ none)) ∧
    (validar_rut_completo (("123").toList) []).valido = false ∧
    (validar_telefono_chileno (("abcdefgh").toList) []).valido = false ∧
    (validar_telefono_chileno (("123456").toList) []).valido = false ∧
    (validar_email_juridico (("sin_arroba.com").toList) []).valido = false ∧
    (validar_contexto_monetario (("abc").toList) []).valido = false ∧
    (validar_contexto_uf (("UF abc").toList) []).valido = false := by
  refine ⟨?_, by decide, by decide, by decide, by decide, by decide, by decide⟩
  intro raw contexto
  exact ⟨rut_razon_presente raw contexto, telefono_razon_presente raw contexto,
    email_razon_presente raw contexto, monetario_razon_presente raw contexto,
    uf_razon_presente raw contexto⟩

/-- Closed instance of claim C3 at concrete malformed inputs: each validator
returns an invalid verdict carrying a failure reason. -/
theorem c3_testigo :
    (validar_rut_completo (("123").toList) []).razon ≠ none ∧
    (validar_telefono_chileno (("abcdefgh").toList) []).razon ≠ none ∧
    (validar_email_juridico (("sin_arroba.com").toList) []).razon ≠ none ∧
    (validar_contexto_monetario (("abc").toList) []).razon ≠ none ∧
    (validar_contexto_uf (("UF abc").toList) []).razon ≠ none := by
  have h := (c3_validadores_totales.1 (("123").toList) []).1 (by decide)
  have h2 := ((c3_validadores_totales.1 (("abcdefgh").toList) []).2).1 (by decide)
  have h3 := (((c3_validadores_totales.1 (("sin_arroba.com").toList) []).2).2).1 (by decide)
  have h4 := ((((c3_validadores_totales.1 (("abc").toList) []).2).2).2).1 (by decide)
  have h5 := ((((c3_validadores_totales.1 (("UF abc").toList) []).2).2).2).2 (by decide)
  exact ⟨h, h2, h3, h4, h5⟩

/-
Authority classifier of `RedactorLegalUltimate` (app/main.py, absent from
src/), modelled from the specification §4.2 and exercised by
`app/tests/test_procesador.py` (test_es_autoridad).
-/

/-- Modelled from the spec: the fixed vocabulary of official-role titles
(judge, prosecutor, minister-of-court, notary, president-of-tribunal). -/
def titulos_autoridad : List Str :=
  [("juez").toList, ("fiscal").toList, ("ministro").toList,
   ("notario").toList, ("presidente del tribunal").toList]

/-- Modelled from the spec: `RedactorLegalUltimate.es_autoridad` (app/main.py,
absent from src/): case-insensitive containment test of a title token inside
the phrase. -/
def es_autoridad (frase : Str) : Bool :=
  titulos_autoridad.any (fun titulo => contiene (minusculas frase) titulo)

/-- Claim C4: the authority classifier returns true exactly when the phrase
contains, case-insensitively and as a contiguous substring, one of the fixed
official-role title tokens; on the test suite's role-titled phrases it returns
true and on its bare person and organisation names it returns false. -/
theorem c4_es_autoridad :
    (∀ frase : Str,
      es_autoridad frase = true ↔
        ∃ titulo ∈ titulos_autoridad,
          ∃ pre post, minusculas frase = pre ++ titulo ++ post) ∧
    es_autoridad (("Juez Juan Pérez").toList) = true ∧
    es_autoridad (("Fiscal María González").toList) = true ∧
    es_autoridad (("Ministro de la Corte").toList) = true ∧
    es_autoridad (("Notario público").toList) = true ∧
    es_autoridad (("Presidente del tribunal").toList) = true ∧
    es_autoridad (("Juan Pérez").toList) = false ∧
    es_autoridad (("Empresa Ejemplo S.A.").toList) = false ∧
    es_autoridad (("Cliente particular").toList) = false ∧
    es_autoridad (("Testigo anónimo").toList) = false := by
  refine ⟨?_, by decide, by decide, by decide, by decide, by decide,
    by decide, by decide, by decide, by decide⟩
  intro frase
  simp only [es_autoridad, List.any_eq_true, contiene_iff]

/-
Pipeline data model and the redaction / reporting / orchestration
components of `RedactorLegalUltimate` and `GeneradorReportesEjecutivos`
(app/main.py, absent from src/), modelled from the specification
§3, §4.4-§4.6 and §7.
-/

/-- Modelled from the spec: the processing-mode enum of app/main.py (absent
from src/): preview (revision) versus destructive (final). -/
inductive Modo
  | revision
  | final
deriving DecidableEq

/-- Modelled from the spec: provenance of a confirmed entry in app/main.py
(absent from src/): direct pattern match or contextual memory match. -/
inductive Fuente
  | patron
  | memoria_contextual
deriving DecidableEq

/-- Modelled from the spec: a Confirmed Entry of the worklist (blacklist
item) of app/main.py (absent from src/): page, bounding region, category,
normalised value, validation verdict, exemption flag and source. -/
structure Entrada where
  pagina : Nat
  region : Nat × Nat × Nat × Nat
  categoria : Str
  valor : Str
  verdicto : Verdicto
  exenta : Bool
  fuente : Fuente
deriving DecidableEq

/-- Modelled from the spec: a document as the scanner sees it, the
extractable text of each page in page order. -/
structure Documento where
  paginas : List Str
deriving DecidableEq

/-- Modelled from the spec: the output of the redaction applier: the pages,
the entries over which an opaque mark was drawn, and the mode the run used. -/
structure Salida where
  paginas : List Str
  marcadas : List Entrada
  modo : Modo
deriving DecidableEq

/-- Modelled from the spec: `RedactorLegalUltimate`'s redaction applier
(app/main.py, absent from src/): draw an opaque mark over the region of each
non-exempt confirmed entry and leave every exempt entry untouched; the mode
is recorded to govern whether marked content stays extractable. -/
def aplicar_redaccion (doc : Documento) (lista_negra : List Entrada) (modo : Modo) : Salida :=
  ⟨doc.paginas, lista_negra.filter (fun e => !e.exenta), modo⟩

/-- Modelled from the spec: what a copy/extract operation recovers at an
entry's region in the output document: nothing when the entry was marked in
final mode, the underlying value otherwise (preview marks keep content
extractable). -/
def contenido_extraible (salida : Salida) (e : Entrada) : Option Str :=
  if salida.modo = .final ∧ e ∈ salida.marcadas then none else some e.valor

/-- Modelled from the spec: the applier as a process over document state: it
produces one output document and hands back the source document it leaves
behind, which is never mutated in place. -/
def aplicar_redaccion_proceso (doc : Documento) (lista_negra : List Entrada) (modo : Modo) :
    Salida × Documento :=
  (aplicar_redaccion doc lista_negra modo, doc)

/-- Modelled from the spec: byte serialisation of an entry (fields flattened
to numbers). -/
def serializar_entrada (e : Entrada) : List Nat :=
  [e.pagina, e.region.1, e.region.2.1, e.region.2.2.1, e.region.2.2.2] ++
  e.categoria.map Char.toNat ++ e.valor.map Char.toNat ++
  [if e.exenta then 1 else 0,
   match e.fuente with | .patron => 0 | .memoria_contextual => 1]

/-- Modelled from the spec: byte serialisation of an output document, the
bytes the applier persists. -/
def serializar_salida (salida : Salida) : List Nat :=
  (salida.paginas.map (fun p => p.map Char.toNat)).flatten ++
  (salida.marcadas.map serializar_entrada).flatten ++
  [match salida.modo with | .revision => 0 | .final => 1]

/-- Claim C2: in both modes the redaction applier marks no exempt entry: an
entry with the exemption flag set is never among the marked entries of the
output, and its content stays extractable there. -/
theorem c2_exencion_invariante (doc : Documento) (lista_negra : List Entrada)
    (modo : Modo) (e : Entrada) (_hmem : e ∈ lista_negra) (hex : e.exenta = true) :
    e ∉ (aplicar_redaccion doc lista_negra modo).marcadas ∧
    contenido_extraible (aplicar_redaccion doc lista_negra modo) e = some e.valor := by
  have hno : e ∉ (aplicar_redaccion doc lista_negra modo).marcadas := by
    simp only [aplicar_redaccion, List.mem_filter]
    rintro ⟨-, hkeep⟩
    rw [hex] at hkeep
    simp at hkeep
  refine ⟨hno, ?_⟩
  unfold contenido_extraible
  rw [if_neg]
  rintro ⟨-, hmarc⟩
  exact hno hmarc

/-- Closed instance of claim C2: a concrete exempt entry is left unmarked by
a final-mode run over a one-entry worklist. -/
theorem c2_testigo :
    (⟨0, (1, 2, 3, 4), ("nombre").toList, ("Juez Juan Pérez").toList,
        ⟨true, none⟩, true, .patron⟩ : Entrada) ∉
      (aplicar_redaccion ⟨[("pagina uno").toList]⟩
        [⟨0, (1, 2, 3, 4), ("nombre").toList, ("Juez Juan Pérez").toList,
          ⟨true, none⟩, true, .patron⟩] .final).marcadas := by
  exact (c2_exencion_invariante ⟨[("pagina uno").toList]⟩
    [⟨0, (1, 2, 3, 4), ("nombre").toList, ("Juez Juan Pérez").toList,
      ⟨true, none⟩, true, .patron⟩] .final
    ⟨0, (1, 2, 3, 4), ("nombre").toList, ("Juez Juan Pérez").toList,
      ⟨true, none⟩, true, .patron⟩ (by decide) (by decide)).1

/-- Claim C6: running the redaction applier twice in preview mode on the same
document and worklist yields byte-identical outputs, and neither application
mutates the source document: the first run hands the source back unchanged
and the second run, applied to that handed-back document, serialises to the
same bytes as the first output. -/
theorem c6_idempotencia_revision (doc : Documento) (lista_negra : List Entrada) :
    serializar_salida
        (aplicar_redaccion_proceso
          (aplicar_redaccion_proceso doc lista_negra .revision).2 lista_negra .revision).1 =
      serializar_salida (aplicar_redaccion_proceso doc lista_negra .revision).1 ∧
    (aplicar_redaccion_proceso doc lista_negra .revision).2 = doc ∧
    (aplicar_redaccion_proceso
        (aplicar_redaccion_proceso doc lista_negra .revision).2 lista_negra .revision).2 = doc := by
  exact ⟨rfl, rfl, rfl⟩

/-- Modelled from the spec: one row of the audit report of
GeneradorReportesEjecutivos (app/main.py, absent from src/). -/
structure FilaReporte where
  categoria : Str
  valor : Str
  pagina : Nat
  region : Nat × Nat × Nat × Nat
  exenta : Bool
  razon : Option Razon
deriving DecidableEq

/-- Modelled from the spec: the audit report, a header and one row per
confirmed entry. -/
structure Reporte where
  encabezado : List Str
  filas : List FilaReporte
deriving DecidableEq

/-- Modelled from the spec: the report row recording one confirmed entry,
its exemption flag included. -/
def fila_de_entrada (e : Entrada) : FilaReporte :=
  ⟨e.categoria, e.valor, e.pagina, e.region, e.exenta, e.verdicto.razon⟩

/-- Modelled from the spec: `GeneradorReportesEjecutivos`' report generator
(app/main.py, absent from src/): a fixed header and one row per confirmed
entry of the worklist, exempt entries included and flagged; an empty worklist
yields the header alone. -/
def generar_reporte (lista_negra : List Entrada) (_documento_id : Str)
    (_modo : Modo) (_marca_tiempo : Nat) : Reporte :=
  ⟨[("categoria").toList, ("valor").toList, ("pagina").toList,
    ("region").toList, ("exenta").toList, ("razon").toList],
   lista_negra.map fila_de_entrada⟩

/-- Modelled from the spec: report generation as a process over the applier's
output: it reads the output and hands it back unmodified. -/
def generar_reporte_proceso (salida : Salida) (lista_negra : List Entrada)
    (documento_id : Str) (modo : Modo) (marca_tiempo : Nat) : Reporte × Salida :=
  (generar_reporte lista_negra documento_id modo marca_tiempo, salida)

/-- Claim C5: the report has exactly one row per confirmed entry of the
worklist (so row count equals worklist size), every entry appears with its
exemption flag preserved, the empty worklist yields a header-only report, and
generating the report hands the applier's output back unmodified. -/
theorem c5_reporte_completo (salida : Salida) (lista_negra : List Entrada)
    (documento_id : Str) (modo : Modo) (marca_tiempo : Nat) :
    (generar_reporte lista_negra documento_id modo marca_tiempo).filas.length =
      lista_negra.length ∧
    (lista_negra = [] →
      (generar_reporte lista_negra documento_id modo marca_tiempo).filas = [] ∧
      (generar_reporte lista_negra documento_id modo marca_tiempo).encabezado ≠ []) ∧
    (∀ e ∈ lista_negra,
      fila_de_entrada e ∈ (generar_reporte lista_negra documento_id modo marca_tiempo).filas ∧
      (fila_de_entrada e).exenta = e.exenta) ∧
    (generar_reporte_proceso salida lista_negra documento_id modo marca_tiempo).2 = salida := by
  refine ⟨by simp [generar_reporte], ?_, ?_, rfl⟩
  · rintro rfl
    exact ⟨rfl, by simp [generar_reporte]⟩
  · intro e he
    exact ⟨by simp [generar_reporte, List.mem_map]; exact ⟨e, he, rfl⟩, rfl⟩

/-- Closed instance of claim C5 at the empty worklist: the report is
header-only. -/
theorem c5_testigo :
    (generar_reporte [] (("contrato.pdf").toList) .final 0).filas = [] ∧
    (generar_reporte [] (("contrato.pdf").toList) .final 0).encabezado ≠ [] := by
  exact (c5_reporte_completo ⟨[], [], .final⟩ [] (("contrato.pdf").toList) .final 0).2.1 rfl

/-- Modelled from the spec: the text extractable from a document, whitespace
discounted, as inspected by necesita_ocr (app/main.py, absent from src/). -/
def texto_extraible (doc : Documento) : Str :=
  (doc.paginas.map (fun p => p.filter (fun c => !c.isWhitespace))).flatten

/-- Modelled from the spec: minimal density of extractable text below which a
document counts as image-only. -/
def umbral_texto_minimo : Nat := 25

/-- Modelled from the spec: `RedactorLegalUltimate.necesita_ocr` (app/main.py,
absent from src/): true exactly when the extractable text of the document
stays below the minimal density threshold. -/
def necesita_ocr (doc : Documento) : Bool :=
  (texto_extraible doc).length < umbral_texto_minimo

/-- Claim C7: the OCR-need detector returns true on every document with no
extractable text (and, more generally, below-threshold text), and false on
every document with substantial extractable text, so OCR is never requested
for a text-bearing document. -/
theorem c7_necesita_ocr (doc : Documento) :
    ((texto_extraible doc).length = 0 → necesita_ocr doc = true) ∧
    (umbral_texto_minimo ≤ (texto_extraible doc).length → necesita_ocr doc = false) := by
  constructor
  · intro h0
    simp only [necesita_ocr, decide_eq_true_eq, h0, umbral_texto_minimo]
    omega
  · intro hsub
    simp only [necesita_ocr, decide_eq_false_iff_not, Nat.not_lt]
    exact hsub

/-- Closed instance of claim C7: the empty document needs OCR and a
text-bearing document does not. -/
theorem c7_testigo :
    necesita_ocr ⟨[]⟩ = true ∧
    necesita_ocr ⟨[("un contrato con bastante texto extraible en su primera pagina").toList]⟩ = false := by
  refine ⟨(c7_necesita_ocr ⟨[]⟩).1 (by decide), ?_⟩
  exact (c7_necesita_ocr
    ⟨[("un contrato con bastante texto extraible en su primera pagina").toList]⟩).2 (by decide)

/-- Modelled from the spec: the persistent store, a list of (path, bytes)
artifacts. -/
abbrev Sistema := List (Str × List Nat)

/-- Modelled from the spec: the error taxonomy a pipeline run can surface,
by stage (§7 of the design). -/
inductive ErrorPipeline
  | entrada_invalida
  | ocr_no_disponible
  | error_escritura
deriving DecidableEq

/-- Modelled from the spec: byte serialisation of a report row. -/
def serializar_fila (f : FilaReporte) : List Nat :=
  f.categoria.map Char.toNat ++ f.valor.map Char.toNat ++
  [f.pagina, f.region.1, f.region.2.1, f.region.2.2.1, f.region.2.2.2,
   if f.exenta then 1 else 0]

/-- Modelled from the spec: byte serialisation of a report, the bytes the
pipeline persists as the audit artifact. -/
def serializar_reporte (r : Reporte) : List Nat :=
  (r.encabezado.map (List.map Char.toNat)).flatten ++
  (r.filas.map serializar_fila).flatten

/-- Modelled from the spec: the pipeline orchestrator with all-or-nothing
persistence (§4.5, §7): an unreadable source or an unavailable OCR
collaborator aborts before anything is written; the output document and the
audit report are staged and committed atomically, so a write failure
surfaces a write error and leaves the store untouched. The three booleans
abstract the outcomes of the fallible external steps. -/
def ejecutar_pipeline (fs : Sistema) (doc : Documento) (lista_negra : List Entrada)
    (modo : Modo) (ruta_doc ruta_reporte documento_id : Str) (marca_tiempo : Nat)
    (entrada_ok ocr_ok escritura_ok : Bool) :
    Except ErrorPipeline (Salida × Reporte) × Sistema :=
  if !entrada_ok then (.error .entrada_invalida, fs)
  else if !ocr_ok then (.error .ocr_no_disponible, fs)
  else
    let salida := aplicar_redaccion doc lista_negra modo
    let reporte := generar_reporte lista_negra documento_id modo marca_tiempo
    if escritura_ok then
      (.ok (salida, reporte),
        (ruta_reporte, serializar_reporte reporte) ::
        (ruta_doc, serializar_salida salida) :: fs)
    else (.error .error_escritura, fs)

/-- Claim C8: a pipeline run that fails at any stage leaves the persistent
store exactly as it was (zero new artifacts, no partial file) — in particular
a write failure surfaces the write error with the store untouched — and a
successful run commits exactly the complete, consistent pair of output
document and audit report. -/
theorem c8_todo_o_nada (fs : Sistema) (doc : Documento) (lista_negra : List Entrada)
    (modo : Modo) (ruta_doc ruta_reporte documento_id : Str) (marca_tiempo : Nat)
    (entrada_ok ocr_ok escritura_ok : Bool) :
    (∀ err, (ejecutar_pipeline fs doc lista_negra modo ruta_doc ruta_reporte documento_id
        marca_tiempo entrada_ok ocr_ok escritura_ok).1 = .error err →
      (ejecutar_pipeline fs doc lista_negra modo ruta_doc ruta_reporte documento_id
        marca_tiempo entrada_ok ocr_ok escritura_ok).2 = fs) ∧
    (entrada_ok = true → ocr_ok = true → escritura_ok = false →
      (ejecutar_pipeline fs doc lista_negra modo ruta_doc ruta_reporte documento_id
        marca_tiempo entrada_ok ocr_ok escritura_ok).1 = .error .error_escritura) ∧
    (∀ salida reporte,
      (ejecutar_pipeline fs doc lista_negra modo ruta_doc ruta_reporte documento_id
        marca_tiempo entrada_ok ocr_ok escritura_ok).1 = .ok (salida, reporte) →
      salida = aplicar_redaccion doc lista_negra modo ∧
      reporte = generar_reporte lista_negra documento_id modo marca_tiempo ∧
      (ejecutar_pipeline fs doc lista_negra modo ruta_doc ruta_reporte documento_id
          marca_tiempo entrada_ok ocr_ok escritura_ok).2 =
        (ruta_reporte, serializar_reporte reporte) ::
        (ruta_doc, serializar_salida salida) :: fs) := by
  cases entrada_ok <;> cases ocr_ok <;> cases escritura_ok <;> simp [ejecutar_pipeline]

/-- Closed instance of claim C8: with a failing write step the pipeline
surfaces the write error and leaves the store untouched. -/
theorem c8_testigo :
    (ejecutar_pipeline [] ⟨[]⟩ [] .final (("salida.pdf").toList)
        (("reporte.csv").toList) (("doc").toList) 0 true true false).1 =
      .error .error_escritura ∧
    (ejecutar_pipeline [] ⟨[]⟩ [] .final (("salida.pdf").toList)
        (("reporte.csv").toList) (("doc").toList) 0 true true false).2 = [] := by
  have h := c8_todo_o_nada [] ⟨[]⟩ [] .final (("salida.pdf").toList)
    (("reporte.csv").toList) (("doc").toList) 0 true true false
  have herr := h.2.1 rfl rfl rfl
  exact ⟨herr, h.1 .error_escritura herr⟩
